import Mathlib

/-!
Verification development for the xdg-dirs library (src/src/lib.rs): a shallow
embedding of the XDG base-directory resolution logic, followed by theorems
about its behaviour.

Modelling conventions:
* The process environment is a function `String → Option String`
  (`env::var` returning `Ok` is `some`, `Err(NotPresent)` is `none`).
* Rust `PathBuf`s are plain `String`s; `PathBuf::push` (Unix semantics:
  an absolute argument replaces the whole path, otherwise a `/` separator is
  inserted when the buffer is non-empty and does not already end in one) is
  `pushPath`.
* The filesystem is a structure `Fs` with an abstract `canonicalize`
  (`Path::canonicalize`, `none` on failure) and an existence predicate
  (`Path::exists`).
* Fallible functions return `Except Error α`.
-/

/-- Descriptor of one XDG base-directory category (struct `XdgDir` in lib.rs). -/
structure XdgDir where
  env_var : String
  home_fallback : Option String
  system_var : Option String
  system_fallback : Option (List String)
  deriving DecidableEq, Repr

/-- `dirs::CONFIG` constant from lib.rs. -/
def dirs.CONFIG : XdgDir :=
  { env_var := "XDG_CONFIG_HOME"
  , home_fallback := some ".config/"
  , system_var := some "XDG_CONFIG_DIRS"
  , system_fallback := some ["/etc/xdg"] }

/-- `dirs::DATA` constant from lib.rs. -/
def dirs.DATA : XdgDir :=
  { env_var := "XDG_DATA_HOME"
  , home_fallback := some ".local/share/"
  , system_var := some "XDG_DATA_DIRS"
  , system_fallback := some ["/usr/local/share/", "/usr/share/"] }

/-- `dirs::CACHE` constant from lib.rs. -/
def dirs.CACHE : XdgDir :=
  { env_var := "XDG_CACHE_HOME"
  , home_fallback := some ".cache/"
  , system_var := none
  , system_fallback := none }

/-- `dirs::STATE` constant from lib.rs. -/
def dirs.STATE : XdgDir :=
  { env_var := "XDG_STATE_HOME"
  , home_fallback := some ".local/state/"
  , system_var := none
  , system_fallback := none }

/-- `dirs::RUNTIME` constant from lib.rs. -/
def dirs.RUNTIME : XdgDir :=
  { env_var := "XDG_RUNTIME_DIR"
  , home_fallback := none
  , system_var := none
  , system_fallback := none }

/-- The `Error` enum exactly as declared in lib.rs lines 49-60: note that
`NotFound` carries only the suffix string, and there is no
`SystemDirNotApplicable` variant. -/
inductive Error where
  | NoHome : Error
  | EnvVarNotSet : String → Error
  | NotFound : String → Error
  deriving DecidableEq, Repr

/-- Rust `Path::is_absolute` on Unix: the path has a root, i.e. its first byte
is the separator `/`. -/
def isAbsolute (p : String) : Bool :=
  match p.data with
  | '/' :: _ => true
  | _ => false

/-- Whether the last byte of the buffer is the separator `/` (the negation of
`need_sep` in Rust's `PathBuf::push` when the buffer is non-empty). -/
def endsWithSep (base : String) : Bool :=
  match base.data.getLast? with
  | some '/' => true
  | _ => false

/-- Rust `PathBuf::push` on Unix: an absolute argument (leading `/`) replaces
the whole buffer; otherwise a `/` separator is appended first when the buffer
is non-empty and its last byte is not already a separator. -/
def pushPath (base p : String) : String :=
  if isAbsolute p then p
  else (if base ≠ "" ∧ ¬ endsWithSep base then base ++ "/" else base) ++ p

/-- Auxiliary recursion for `splitOnChar`. -/
def splitOnCharAux (c : Char) : List Char → List Char → List String
  | [], acc => [String.mk acc.reverse]
  | x :: xs, acc =>
    if x = c then String.mk acc.reverse :: splitOnCharAux c xs []
    else splitOnCharAux c xs (x :: acc)

/-- Rust `str::split(c)`: split on every occurrence of `c`, keeping empty
segments (so the result always has at least one element). -/
def splitOnChar (s : String) (c : Char) : List String :=
  splitOnCharAux c s.data []

/-- The filesystem as seen by `xdg_location_of`: `canonicalize` models
`Path::canonicalize` (resolving symlinks and relative segments, `none` on
failure) and `exists_` models `Path::exists`. -/
structure Fs where
  canonicalize : String → Option String
  exists_ : String → Bool

/-- `xdg_user_dir` from lib.rs lines 64-88: take the primary environment
variable if set; otherwise fall back to `HOME` joined with the home-fallback
segment (erroring with `NoHome` when `HOME` is unset), or error with
`EnvVarNotSet` when the descriptor has no home fallback; finally push the
suffix onto the chosen base path. -/
def xdg_user_dir (env : String → Option String) (xdg_dir : XdgDir) (suffix : String) :
    Except Error String :=
  let config_path : Except Error String :=
    match env xdg_dir.env_var with
    | some p => .ok p
    | none =>
      match xdg_dir.home_fallback with
      | some home_dir =>
        match env "HOME" with
        | some p => .ok (pushPath p home_dir)
        | none => .error .NoHome
      | none => .error (.EnvVarNotSet xdg_dir.env_var)
  match config_path with
  | .ok path => .ok (pushPath path suffix)
  | .error e => .error e

/-- `xdg_config_dir` from lib.rs lines 90-92. -/
def xdg_config_dir (env : String → Option String) (suffix : String) : Except Error String :=
  xdg_user_dir env dirs.CONFIG suffix

/-- `xdg_system_dirs` from lib.rs lines 96-127: if the system environment
variable is set and non-empty, split it on `:` and push the suffix onto each
segment; otherwise use the static system fallback list when present; otherwise
error with `NotFound suffix`. -/
def xdg_system_dirs (env : String → Option String) (xdg_dir : XdgDir) (suffix : String) :
    Except Error (List String) :=
  match
    (match xdg_dir.system_var with
     | some var =>
       match env var with
       | some val =>
         if val ≠ "" then
           some ((splitOnChar val ':').map (fun p => pushPath p suffix))
         else none
       | none => none
     | none => none) with
  | some paths => .ok paths
  | none =>
    match xdg_dir.system_fallback with
    | some paths => .ok (paths.map (fun p => pushPath p suffix))
    | none => .error (.NotFound suffix)

/-- The `for p in sys_paths` loop body of `xdg_location_of`: return the first
candidate that canonicalizes successfully to an existing path. -/
def findExisting (fs : Fs) : List String → Option String
  | [] => none
  | p :: rest =>
    match fs.canonicalize p with
    | some q => if fs.exists_ q then some q else findExisting fs rest
    | none => findExisting fs rest

/-- `xdg_location_of` from lib.rs lines 135-158: first try the user path
(canonicalize it and check existence), then each system path in order, and
finally fail with `NotFound suffix`. -/
def xdg_location_of (env : String → Option String) (fs : Fs) (xdg_dir : XdgDir)
    (suffix : String) : Except Error String :=
  match
    (match xdg_user_dir env xdg_dir suffix with
     | .ok user_loc =>
       match fs.canonicalize user_loc with
       | some u => if fs.exists_ u then some u else none
       | none => none
     | .error _ => none) with
  | some u => .ok u
  | none =>
    match xdg_system_dirs env xdg_dir suffix with
    | .ok sys_paths =>
      match findExisting fs sys_paths with
      | some p => .ok p
      | none => .error (.NotFound suffix)
    | .error _ => .error (.NotFound suffix)

example : pushPath "/some/path" "test" = "/some/path/test" := by decide
example : pushPath "/h/.config/" "test" = "/h/.config/test" := by decide
example : pushPath "" "test" = "test" := by decide
example : pushPath "/a" "/abs" = "/abs" := by decide
example : splitOnChar "/a:/b" ':' = ["/a", "/b"] := by decide
example : splitOnChar "/a" ':' = ["/a"] := by decide

/-! Concrete environments and filesystems used to instantiate the theorems. -/

/-- An environment with no variable set. -/
def envNone : String → Option String := fun _ => none

/-- A filesystem on which nothing exists and nothing canonicalizes. -/
def fsEmpty : Fs :=
  { canonicalize := fun _ => none
  , exists_ := fun _ => false }

/-- Environment with `XDG_CONFIG_HOME=/home/u/cfg` and `XDG_CONFIG_DIRS=/a:/b`. -/
def envConfigAB : String → Option String := fun v =>
  if v = "XDG_CONFIG_HOME" then some "/home/u/cfg"
  else if v = "XDG_CONFIG_DIRS" then some "/a:/b"
  else none

/-- Environment where `XDG_CONFIG_HOME` points at a symlink `/link`. -/
def envLink : String → Option String := fun v =>
  if v = "XDG_CONFIG_HOME" then some "/link" else none

/-- A filesystem where `/link/test` is a symlink to the existing file
`/real/test`, so canonicalizing `/link/test` yields `/real/test`. -/
def fsLink : Fs :=
  { canonicalize := fun p =>
      if p = "/link/test" then some "/real/test"
      else if p = "/real/test" then some "/real/test"
      else none
  , exists_ := fun p => p == "/real/test" || p == "/link/test" }

/-- C1: the claim says `xdg_system_dirs` on the cache, state and runtime
descriptors fails with a `SystemDirNotApplicable` error naming the category,
distinct from the not-found error.  The code instead fails with
`Error::NotFound(suffix)` — the `Error` enum of lib.rs has no
`SystemDirNotApplicable` variant at all — which is exactly the error value
`xdg_location_of` uses for "nothing matched", so the two situations are not
distinguishable.  The repository's own test `test_sys_cache_dir` expects
`Err(Error::SystemDirNotApplicable("cache"))`, which this code cannot produce. -/
theorem xdg_system_dirs_no_system_error_is_notfound :
    xdg_system_dirs envNone dirs.CACHE "test" = .error (.NotFound "test") ∧
    xdg_system_dirs envNone dirs.STATE "test" = .error (.NotFound "test") ∧
    xdg_system_dirs envNone dirs.RUNTIME "test" = .error (.NotFound "test") ∧
    xdg_location_of envNone fsEmpty dirs.CACHE "test" = .error (.NotFound "test") :=
  ⟨rfl, rfl, rfl, rfl⟩

/-- C2: the claim says the `NotFound` failure of `xdg_location_of` carries both
the suffix and the full ordered list of attempted candidate paths.  The code's
`Error::NotFound` (lib.rs line 59) carries only the suffix string: at an input
where the user candidate `/home/u/cfg/xyz` and the system candidates `/a/xyz`,
`/b/xyz` were all tried, the returned error is just `NotFound "xyz"` with no
path list.  The repository's own test `test_xdg_location_of_config` expects
`Error::NotFound(suffix, vec![...tried paths...])`. -/
theorem xdg_location_of_notfound_carries_only_suffix :
    xdg_user_dir envConfigAB dirs.CONFIG "xyz" = .ok "/home/u/cfg/xyz" ∧
    xdg_system_dirs envConfigAB dirs.CONFIG "xyz" = .ok ["/a/xyz", "/b/xyz"] ∧
    xdg_location_of envConfigAB fsEmpty dirs.CONFIG "xyz" = .error (.NotFound "xyz") :=
  ⟨rfl, rfl, rfl⟩

/-- C6: whenever the primary environment variable of the descriptor is set —
even to the empty string — `xdg_user_dir` succeeds with that value as the base
path, the suffix pushed onto it; the conclusion holds for every environment
with that binding, hence regardless of `HOME` and of the home fallback. -/
theorem xdg_user_dir_env_var_set (env : String → Option String) (d : XdgDir)
    (suffix p : String) (hp : env d.env_var = some p) :
    xdg_user_dir env d suffix = .ok (pushPath p suffix) := by
  simp [xdg_user_dir, hp]

/-- Environment with `XDG_CONFIG_HOME=/p` and `HOME=/h`. -/
def envPrimaryP : String → Option String := fun v =>
  if v = "XDG_CONFIG_HOME" then some "/p"
  else if v = "HOME" then some "/h"
  else none

/-- Environment with `XDG_CONFIG_HOME` set to the empty string and
`HOME=/other`. -/
def envPrimaryEmpty : String → Option String := fun v =>
  if v = "XDG_CONFIG_HOME" then some ""
  else if v = "HOME" then some "/other"
  else none

/-- Witness for C6: with the primary variable set to `/p` the result is
`/p/test` although `HOME=/h`; with the primary variable set to the empty
string the result is `test` although `HOME=/other`. -/
theorem xdg_user_dir_env_var_set_witness :
    xdg_user_dir envPrimaryP dirs.CONFIG "test" = .ok "/p/test" ∧
    xdg_user_dir envPrimaryEmpty dirs.CONFIG "test" = .ok "test" := by
  constructor
  · rw [xdg_user_dir_env_var_set envPrimaryP dirs.CONFIG "test" "/p" rfl]; rfl
  · rw [xdg_user_dir_env_var_set envPrimaryEmpty dirs.CONFIG "test" "" rfl]; rfl

/-- Pushing a relative path onto a buffer that already ends in a separator is
plain concatenation. -/
theorem pushPath_rel_sep (base p : String) (h : isAbsolute p = false)
    (hsep : endsWithSep base = true) : pushPath base p = base ++ p := by
  simp [pushPath, h, hsep]

/-- C3 counterexample: with `XDG_CONFIG_HOME=/link` where `/link/test` is a
symlink to the existing `/real/test`, the user path `/link/test` exists on the
filesystem, yet `xdg_location_of` returns the canonicalized path `/real/test`,
which is not the same path value. -/
theorem location_of_roundtrip_counterexample :
    xdg_user_dir envLink dirs.CONFIG "test" = .ok "/link/test" ∧
    fsLink.exists_ "/link/test" = true ∧
    xdg_location_of envLink fsLink dirs.CONFIG "test" = .ok "/real/test" ∧
    ("/real/test" : String) ≠ "/link/test" :=
  ⟨rfl, rfl, rfl, by decide⟩

/-- C3 amended: when the path returned by `xdg_user_dir` canonicalizes
successfully to an existing path, `xdg_location_of` returns that
*canonicalized* path (which coincides with the user path exactly when
canonicalization leaves it unchanged, e.g. no symlinks or relative
segments). -/
theorem location_of_returns_canonicalized_user_path
    (env : String → Option String) (fs : Fs) (d : XdgDir) (suffix p c : String)
    (hu : xdg_user_dir env d suffix = .ok p)
    (hc : fs.canonicalize p = some c)
    (he : fs.exists_ c = true) :
    xdg_location_of env fs d suffix = .ok c := by
  simp [xdg_location_of, hu, hc, he]

/-- Witness for C3's amended theorem at the symlink instance. -/
theorem location_of_returns_canonicalized_user_path_witness :
    xdg_location_of envLink fsLink dirs.CONFIG "test" = .ok "/real/test" :=
  location_of_returns_canonicalized_user_path envLink fsLink dirs.CONFIG
    "test" "/link/test" "/real/test" rfl rfl rfl

/-- C7: for each registry descriptor that defines a home fallback (config,
data, cache, state), when the primary variable is unset and `HOME=/h`,
`xdg_user_dir` returns `/h/` followed by the fallback segment followed by the
(relative) suffix. -/
theorem xdg_user_dir_home_fallback_path (env : String → Option String)
    (suffix : String) (hrel : isAbsolute suffix = false)
    (hh : env "HOME" = some "/h") :
    (env "XDG_CONFIG_HOME" = none →
      xdg_user_dir env dirs.CONFIG suffix = .ok ("/h/.config/" ++ suffix)) ∧
    (env "XDG_DATA_HOME" = none →
      xdg_user_dir env dirs.DATA suffix = .ok ("/h/.local/share/" ++ suffix)) ∧
    (env "XDG_CACHE_HOME" = none →
      xdg_user_dir env dirs.CACHE suffix = .ok ("/h/.cache/" ++ suffix)) ∧
    (env "XDG_STATE_HOME" = none →
      xdg_user_dir env dirs.STATE suffix = .ok ("/h/.local/state/" ++ suffix)) := by
  refine ⟨fun h => ?_, fun h => ?_, fun h => ?_, fun h => ?_⟩ <;>
  · simp [xdg_user_dir, dirs.CONFIG, dirs.DATA, dirs.CACHE, dirs.STATE, h, hh]
    exact pushPath_rel_sep _ _ hrel rfl

/-- Environment with only `HOME=/h` set. -/
def envHomeOnly : String → Option String := fun v =>
  if v = "HOME" then some "/h" else none

/-- Witness for C7: with only `HOME=/h` set, the config user dir of suffix
`test` is `/h/.config/test`. -/
theorem xdg_user_dir_home_fallback_path_witness :
    xdg_user_dir envHomeOnly dirs.CONFIG "test" = .ok "/h/.config/test" := by
  rw [(xdg_user_dir_home_fallback_path envHomeOnly "test" (by decide) rfl).1 rfl]; rfl

/-- C8: `xdg_user_dir` fails precisely when the primary environment variable is
unset and either the descriptor has a home fallback but `HOME` is also unset
(error `NoHome`), or the descriptor has no home fallback (error
`EnvVarNotSet` carrying the primary variable's name). -/
theorem xdg_user_dir_error_characterization (env : String → Option String)
    (d : XdgDir) (suffix : String) (e : Error) :
    xdg_user_dir env d suffix = .error e ↔
      env d.env_var = none ∧
        ((d.home_fallback.isSome = true ∧ env "HOME" = none ∧ e = .NoHome) ∨
         (d.home_fallback = none ∧ e = .EnvVarNotSet d.env_var)) := by
  unfold xdg_user_dir
  cases hv : env d.env_var with
  | some p => simp
  | none =>
    cases hf : d.home_fallback with
    | some fb =>
      cases hh : env "HOME" with
      | some hp => simp
      | none => simp [eq_comm]
    | none => simp [eq_comm]

/-- Witness for C8: with no environment variables set, `xdg_user_dir` on the
runtime descriptor (which has no home fallback) fails with
`EnvVarNotSet "XDG_RUNTIME_DIR"`. -/
theorem xdg_user_dir_error_characterization_witness :
    xdg_user_dir envNone dirs.RUNTIME "test" = .error (.EnvVarNotSet "XDG_RUNTIME_DIR") :=
  (xdg_user_dir_error_characterization envNone dirs.RUNTIME "test"
    (.EnvVarNotSet "XDG_RUNTIME_DIR")).mpr ⟨rfl, Or.inr ⟨rfl, rfl⟩⟩

/-- Pushing an absolute path onto any buffer replaces the buffer entirely. -/
theorem pushPath_abs (base p : String) (h : isAbsolute p = true) :
    pushPath base p = p := by
  simp [pushPath, h]

/-- C9: when the suffix is an absolute path, `PathBuf::push` semantics replace
the base entirely: `xdg_user_dir` with the primary variable set returns the
suffix itself, and every candidate in a successful `xdg_system_dirs` result is
the suffix itself. -/
theorem absolute_suffix_replaces_base (env : String → Option String)
    (d : XdgDir) (suffix : String) (habs : isAbsolute suffix = true) :
    (∀ p, env d.env_var = some p → xdg_user_dir env d suffix = .ok suffix) ∧
    (∀ l, xdg_system_dirs env d suffix = .ok l → ∀ x ∈ l, x = suffix) := by
  constructor
  · intro p hp
    simp [xdg_user_dir, hp, pushPath_abs _ _ habs]
  · intro l hl x hx
    have hmem : ∀ (src : List String),
        List.map (fun p => pushPath p suffix) src = l → x = suffix := by
      intro src hsrc
      subst hsrc
      simp only [List.mem_map] at hx
      obtain ⟨q, -, rfl⟩ := hx
      exact pushPath_abs _ _ habs
    cases hsv : d.system_var with
    | some var =>
      cases hev : env var with
      | some val =>
        by_cases hne : val = ""
        · cases hsf : d.system_fallback with
          | some ps =>
            subst hne
            simp only [xdg_system_dirs, hsv, hev, hsf, ne_eq, not_true_eq_false,
              if_false, Except.ok.injEq] at hl
            exact hmem ps hl
          | none =>
            subst hne
            simp only [xdg_system_dirs, hsv, hev, hsf, ne_eq, not_true_eq_false,
              if_false, reduceCtorEq] at hl
        · simp only [xdg_system_dirs, hsv, hev, ne_eq, hne, not_false_iff,
            if_true, Except.ok.injEq] at hl
          exact hmem _ hl
      | none =>
        cases hsf : d.system_fallback with
        | some ps =>
          simp only [xdg_system_dirs, hsv, hev, hsf, Except.ok.injEq] at hl
          exact hmem ps hl
        | none =>
          simp only [xdg_system_dirs, hsv, hev, hsf, reduceCtorEq] at hl
    | none =>
      cases hsf : d.system_fallback with
      | some ps =>
        simp only [xdg_system_dirs, hsv, hsf, Except.ok.injEq] at hl
        exact hmem ps hl
      | none =>
        simp only [xdg_system_dirs, hsv, hsf, reduceCtorEq] at hl

/-- Witness for C9: with `XDG_CONFIG_HOME=/home/u/cfg` set, the absolute
suffix `/abs` makes `xdg_user_dir` discard the base and return `/abs`. -/
theorem absolute_suffix_replaces_base_witness :
    xdg_user_dir envConfigAB dirs.CONFIG "/abs" = .ok "/abs" :=
  (absolute_suffix_replaces_base envConfigAB dirs.CONFIG "/abs"
    (by decide)).1 "/home/u/cfg" rfl

/-- C5: for a descriptor with a system environment variable, a non-empty value
of that variable is split on `:` with the suffix pushed onto each segment in
left-to-right order, while an unset or empty variable together with a static
fallback list yields that list in its defined order with the suffix pushed
onto each entry. -/
theorem xdg_system_dirs_split_and_fallback (env : String → Option String)
    (d : XdgDir) (suffix var : String) (hv : d.system_var = some var) :
    (∀ val, env var = some val → val ≠ "" →
      xdg_system_dirs env d suffix =
        .ok ((splitOnChar val ':').map (fun p => pushPath p suffix))) ∧
    (∀ paths, d.system_fallback = some paths →
      (env var = none ∨ env var = some "") →
      xdg_system_dirs env d suffix =
        .ok (paths.map (fun p => pushPath p suffix))) := by
  constructor
  · intro val hval hne
    simp [xdg_system_dirs, hv, hval, hne]
  · intro paths hfb hcase
    rcases hcase with h | h <;> simp [xdg_system_dirs, hv, h, hfb]

/-- Environment with only `XDG_CONFIG_DIRS=/a:/b` set. -/
def envSysAB : String → Option String := fun v =>
  if v = "XDG_CONFIG_DIRS" then some "/a:/b" else none

/-- Witness for C5: with `XDG_CONFIG_DIRS=/a:/b` the config system dirs are
`/a/test`, `/b/test` in order; with nothing set they are the fallback
`/etc/xdg/test`. -/
theorem xdg_system_dirs_split_and_fallback_witness :
    xdg_system_dirs envSysAB dirs.CONFIG "test" = .ok ["/a/test", "/b/test"] ∧
    xdg_system_dirs envNone dirs.CONFIG "test" = .ok ["/etc/xdg/test"] := by
  constructor
  · rw [(xdg_system_dirs_split_and_fallback envSysAB dirs.CONFIG "test"
      "XDG_CONFIG_DIRS" rfl).1 "/a:/b" rfl (by decide)]
    rfl
  · rw [(xdg_system_dirs_split_and_fallback envNone dirs.CONFIG "test"
      "XDG_CONFIG_DIRS" rfl).2 ["/etc/xdg"] rfl (Or.inl rfl)]
    rfl

/-- C4 amended: `xdg_location_of` is exactly the first-existing search, in
order, over the candidate list whose head is the user path (when
`xdg_user_dir` succeeds) followed by the system paths in the order produced by
`xdg_system_dirs`; each candidate is canonicalized and the canonicalized value
is what is returned, so a successful user candidate decides the result even
when system candidates also exist. -/
theorem xdg_location_of_precedence (env : String → Option String) (fs : Fs)
    (d : XdgDir) (suffix : String) :
    xdg_location_of env fs d suffix =
      match findExisting fs
        ((match xdg_user_dir env d suffix with
          | .ok p => [p]
          | .error _ => []) ++
         (match xdg_system_dirs env d suffix with
          | .ok l => l
          | .error _ => [])) with
      | some q => .ok q
      | none => .error (.NotFound suffix) := by
  cases hu : xdg_user_dir env d suffix with
  | ok p =>
    cases hs : xdg_system_dirs env d suffix with
    | ok sys =>
      simp only [xdg_location_of, hu, hs, List.cons_append, List.nil_append,
        findExisting]
      cases hc : fs.canonicalize p with
      | some u => by_cases he : fs.exists_ u <;> simp [he]
      | none => simp
    | error e =>
      simp only [xdg_location_of, hu, hs, List.cons_append, List.nil_append,
        findExisting]
  | error e =>
    cases hs : xdg_system_dirs env d suffix with
    | ok sys => simp [xdg_location_of, hu, hs]
    | error e2 => simp [xdg_location_of, hu, hs, findExisting]

/-- Environment where `XDG_CONFIG_HOME` points at the symlink `/link` and
`XDG_CONFIG_DIRS=/sys`. -/
def envLinkSys : String → Option String := fun v =>
  if v = "XDG_CONFIG_HOME" then some "/link"
  else if v = "XDG_CONFIG_DIRS" then some "/sys"
  else none

/-- A filesystem where `/link/test` is a symlink to the existing `/real/test`
and the system candidate `/sys/test` also exists. -/
def fsLinkSys : Fs :=
  { canonicalize := fun p =>
      if p = "/link/test" then some "/real/test"
      else if p = "/sys/test" then some "/sys/test"
      else if p = "/real/test" then some "/real/test"
      else none
  , exists_ := fun p => p == "/real/test" || p == "/link/test" || p == "/sys/test" }

/-- C4 counterexample: the user path `/link/test` exists (it is a symlink to
`/real/test`) and the system candidate `/sys/test` also exists; the user
candidate does take precedence, but what is returned is the canonicalized path
`/real/test`, not the user path `/link/test` itself. -/
theorem location_of_user_precedence_counterexample :
    xdg_user_dir envLinkSys dirs.CONFIG "test" = .ok "/link/test" ∧
    fsLinkSys.exists_ "/link/test" = true ∧
    xdg_system_dirs envLinkSys dirs.CONFIG "test" = .ok ["/sys/test"] ∧
    fsLinkSys.exists_ "/sys/test" = true ∧
    xdg_location_of envLinkSys fsLinkSys dirs.CONFIG "test" = .ok "/real/test" ∧
    ("/real/test" : String) ≠ "/link/test" :=
  ⟨rfl, rfl, rfl, rfl, rfl, by decide⟩

/-- `splitOnCharAux` always produces at least one segment. -/
theorem splitOnCharAux_ne_nil (c : Char) (l acc : List Char) :
    splitOnCharAux c l acc ≠ [] := by
  induction l generalizing acc with
  | nil => simp [splitOnCharAux]
  | cons x xs ih =>
    simp only [splitOnCharAux]
    split
    · simp
    · exact ih _

/-- Every successful result of `xdg_system_dirs` is the suffix pushed onto
either the colon-split segments of a non-empty variable value or a static
fallback list of the descriptor. -/
theorem xdg_system_dirs_ok_sources (env : String → Option String) (d : XdgDir)
    (suffix : String) (l : List String)
    (hl : xdg_system_dirs env d suffix = .ok l) :
    (∃ val, val ≠ "" ∧ l = (splitOnChar val ':').map (fun p => pushPath p suffix)) ∨
    (∃ ps, d.system_fallback = some ps ∧ l = ps.map (fun p => pushPath p suffix)) := by
  cases hsv : d.system_var with
  | some var =>
    cases hev : env var with
    | some val =>
      by_cases hne : val = ""
      · subst hne
        cases hsf : d.system_fallback with
        | some ps =>
          right
          simp only [xdg_system_dirs, hsv, hev, hsf, ne_eq, not_true_eq_false,
            if_false, Except.ok.injEq] at hl
          exact ⟨ps, rfl, hl.symm⟩
        | none =>
          simp only [xdg_system_dirs, hsv, hev, hsf, ne_eq, not_true_eq_false,
            if_false, reduceCtorEq] at hl
      · left
        simp only [xdg_system_dirs, hsv, hev, ne_eq, hne, not_false_iff,
          if_true, Except.ok.injEq] at hl
        exact ⟨val, hne, hl.symm⟩
    | none =>
      cases hsf : d.system_fallback with
      | some ps =>
        right
        simp only [xdg_system_dirs, hsv, hev, hsf, Except.ok.injEq] at hl
        exact ⟨ps, rfl, hl.symm⟩
      | none =>
        simp only [xdg_system_dirs, hsv, hev, hsf, reduceCtorEq] at hl
  | none =>
    cases hsf : d.system_fallback with
    | some ps =>
      right
      simp only [xdg_system_dirs, hsv, hsf, Except.ok.injEq] at hl
      exact ⟨ps, rfl, hl.symm⟩
    | none =>
      simp only [xdg_system_dirs, hsv, hsf, reduceCtorEq] at hl

/-- C10: for every registry descriptor, a successful `xdg_system_dirs` result
is never the empty list: a colon-split of a non-empty value has at least one
segment, and every fallback list defined in the registry is non-empty. -/
theorem xdg_system_dirs_ok_nonempty (env : String → Option String)
    (suffix : String) (d : XdgDir)
    (hd : d = dirs.CONFIG ∨ d = dirs.DATA ∨ d = dirs.CACHE ∨ d = dirs.STATE ∨
      d = dirs.RUNTIME)
    (l : List String) (hl : xdg_system_dirs env d suffix = .ok l) : l ≠ [] := by
  rcases xdg_system_dirs_ok_sources env d suffix l hl with
    ⟨val, hne, rfl⟩ | ⟨ps, hps, rfl⟩
  · intro h
    rw [List.map_eq_nil_iff] at h
    exact splitOnCharAux_ne_nil _ _ _ h
  · rcases hd with rfl | rfl | rfl | rfl | rfl
    · injection hps with h
      subst h
      simp
    · injection hps with h
      subst h
      simp
    · exact Option.noConfusion hps
    · exact Option.noConfusion hps
    · exact Option.noConfusion hps

/-- Witness for C10: the fallback result for the config descriptor with no
variables set is the non-empty list containing `/etc/xdg/test`. -/
theorem xdg_system_dirs_ok_nonempty_witness :
    (["/etc/xdg/test"] : List String) ≠ [] :=
  xdg_system_dirs_ok_nonempty envNone "test" dirs.CONFIG (Or.inl rfl)
    ["/etc/xdg/test"] rfl
